import Mathlib

/-!
Verification of the matching and ranking core of the indian-local-guide-api
repository: a shallow embedding in Lean 4 of the slang-translation service,
the food-recommendation service and the cultural-content service, together
with theorems settling the behavioural claims about them.

Conventions of the embedding:
* JavaScript numbers that carry fractional values (confidences, ratings,
  distances, prices, relevance scores) are modelled as `ℚ`; integer-valued
  fields (popularity, review counts) as `Int`/`ℕ`.
* The persistence collaborator is modelled as a plain list of records in
  insertion order: SQL row retrieval (`findMany` equality conditions, `LIKE`
  scans) becomes list filtering, `ORDER BY` becomes a stable sort and
  `LIMIT` a `take`.  SQLite's `LIKE` compares ASCII case-insensitively,
  while `=` / `!=` compare exactly; `LIKE` patterns are modelled for
  argument strings free of wildcard and quote characters (on those,
  `sanitizeLikeQuery` is the identity and `%x%` is literal containment).
* Asynchronous storage access is synchronous here; the two translate
  operations additionally return the number of storage calls they perform,
  so that claims about "no storage call" are expressible.
* Timestamp fields (`createdAt`, `updatedAt`, `lastUpdated`) are omitted:
  no modelled operation reads them.
-/

/-! ### Basic string helpers shared by the services -/

/-- Checks whether `needle` occurs as a contiguous sublist of `haystack`. -/
def containsChars (needle : List Char) : List Char → Bool
  | [] => needle.isEmpty
  | c :: rest => needle.isPrefixOf (c :: rest) || containsChars needle rest

/-- JavaScript `a.includes(b)` (substring containment). -/
def containsStr (a b : String) : Bool :=
  containsChars b.toList a.toList

/-- JavaScript `a.startsWith(b)`. -/
def startsWithStr (a b : String) : Bool :=
  b.toList.isPrefixOf a.toList

/-- JavaScript `s.toLowerCase()` (character-wise, ASCII). -/
def lowerStr (s : String) : String :=
  String.mk (s.toList.map Char.toLower)

/-- JavaScript `s.trim()`: strip leading and trailing whitespace. -/
def trimStr (s : String) : String :=
  String.mk (((s.toList.dropWhile Char.isWhitespace).reverse.dropWhile
    Char.isWhitespace).reverse)

/-- JavaScript `a.endsWith(b)` / SQL `LIKE '%b'` body. -/
def endsWithStr (a b : String) : Bool :=
  b.toList.isSuffixOf a.toList

/-- SQLite `s LIKE '%pat%'` for a literal `pat`: ASCII case-insensitive
containment. -/
def likeContains (s pat : String) : Bool :=
  containsStr (lowerStr s) (lowerStr pat)

/-- SQLite `s LIKE 'pat%'` for a literal `pat`. -/
def likeStarts (s pat : String) : Bool :=
  startsWithStr (lowerStr s) (lowerStr pat)

/-- SQLite `s LIKE '%pat'` for a literal `pat`. -/
def likeEnds (s pat : String) : Bool :=
  endsWithStr (lowerStr s) (lowerStr pat)

/-- Embeds `DatabaseUtils.sanitizeLikeQuery` (part_006 lines 841-845):
escape the SQL LIKE wildcards `%` and `_` with a backslash and double
single quotes.  On strings without those characters it is the identity. -/
def sanitizeLikeQuery (q : String) : String :=
  String.mk (q.toList.flatMap (fun c =>
    if c == '%' || c == '_' then ['\\', c]
    else if c == '\'' then ['\'', '\'']
    else [c]))

/-- JavaScript `\w` character class: ASCII letters, digits and underscore. -/
def isWordChar (c : Char) : Bool :=
  c.isAlphanum || c == '_'

/-- Embeds `text.toLowerCase().trim().replace(/[^\w\s]/g, '')` from
`SlangTranslationServiceImpl.normalizeText`. -/
def normalizeText (text : String) : String :=
  String.mk ((trimStr (lowerStr text)).toList.filter (fun c => isWordChar c || c.isWhitespace))

/-- JavaScript `x || d` on numbers: `0` (and `undefined`, modelled by the
caller) falls back to the default. -/
def jsOr (x d : ℚ) : ℚ :=
  if x = 0 then d else x

/-! ### Slang-translation data model (src/src/config/index.ts) -/

structure Translation where
  text : String
  targetLanguage : String
  context : String
  confidence : ℚ
deriving DecidableEq, Repr

structure SlangTerm where
  id : String
  term : String
  language : String
  region : String
  translations : List Translation
  context : String
  popularity : Int
  usageExamples : List String
deriving DecidableEq, Repr

structure AltTranslation where
  text : String
  confidence : ℚ
  context : String
deriving DecidableEq, Repr

structure TranslationResult where
  originalText : String
  translatedText : String
  confidence : ℚ
  context : String
  sourceLanguage : String
  targetLanguage : String
  region : String
  alternatives : List AltTranslation
  usageExamples : List String
  isFuzzyMatch : Bool := false
  isUnknown : Bool := false
deriving DecidableEq, Repr

namespace Slang

/-- Embeds `SlangRepository.findByTerm` (part_002 lines 148-165): an
exact-equality `findMany` on `term` (and on `language` when one is given);
`findMany` emits no `ORDER BY`, so rows come back in store order. -/
def findByTerm (db : List SlangTerm) (term : String) (language : Option String) :
    List SlangTerm :=
  db.filter (fun t =>
    t.term == term &&
      (match language with
       | some l => t.language == l
       | none => true))

/-- Ordering of `ORDER BY popularity DESC` (no secondary key; the stable
sort keeps store order among equal popularities). -/
def popDesc (a b : SlangTerm) : Prop :=
  b.popularity ≤ a.popularity

instance : DecidableRel popDesc := fun a b =>
  inferInstanceAs (Decidable (b.popularity ≤ a.popularity))

instance : IsTotal SlangTerm popDesc :=
  ⟨fun a b => le_total b.popularity a.popularity⟩

instance : IsTrans SlangTerm popDesc :=
  ⟨fun _ _ _ h1 h2 => le_trans h2 h1⟩

/-- Ordering of `ORDER BY popularity DESC, term ASC` (term comparison is
SQLite's byte-wise BINARY collation, modelled by the lexicographic string
order). -/
def searchOrd (a b : SlangTerm) : Prop :=
  b.popularity < a.popularity ∨ (a.popularity = b.popularity ∧ a.term ≤ b.term)

instance : DecidableRel searchOrd := fun _ _ =>
  inferInstanceAs (Decidable (_ ∨ _))

instance : IsTotal SlangTerm searchOrd :=
  ⟨fun a b => by
    unfold searchOrd
    rcases lt_trichotomy a.popularity b.popularity with h | h | h
    · exact Or.inr (Or.inl h)
    · rcases le_total a.term b.term with h2 | h2
      · exact Or.inl (Or.inr ⟨h, h2⟩)
      · exact Or.inr (Or.inr ⟨h.symm, h2⟩)
    · exact Or.inl (Or.inl h)⟩

instance : IsTrans SlangTerm searchOrd :=
  ⟨fun a b c h1 h2 => by
    unfold searchOrd at h1 h2 ⊢
    rcases h1 with h1 | ⟨h1e, h1le⟩ <;> rcases h2 with h2 | ⟨h2e, h2le⟩
    · exact Or.inl (lt_trans h2 h1)
    · exact Or.inl (h2e ▸ h1)
    · exact Or.inl (h1e ▸ h2)
    · exact Or.inr ⟨h1e.trans h2e, le_trans h1le h2le⟩⟩

/-- The per-row accumulation of `findSimilarTerms`: append each hit unless a
result with the same `id` was already collected. -/
def dedupAppendById (acc : List SlangTerm) : List SlangTerm → List SlangTerm
  | [] => acc
  | t :: rest =>
    if acc.any (fun r => r.id == t.id) then dedupAppendById acc rest
    else dedupAppendById (acc ++ [t]) rest

/-- Embeds `SlangRepository.findSimilarTerms` (part_002 lines 299-328): for
each of the patterns `%term%`, `term%`, `%term` run
`WHERE term LIKE pattern AND term != ? ORDER BY popularity DESC LIMIT 10`,
collect hits deduplicated by `id`, and return at most 10 results.  Note the
`term != ?` clause: a stored term exactly equal to the looked-up variant is
excluded. -/
def findSimilarTerms (db : List SlangTerm) (term : String) : List SlangTerm :=
  let hitsFor := fun (pat : SlangTerm → Bool) =>
    (((db.filter (fun t => pat t && t.term != term)).insertionSort popDesc).take 10)
  let round1 := dedupAppendById [] (hitsFor (fun t => likeContains t.term term))
  let round2 := dedupAppendById round1 (hitsFor (fun t => likeStarts t.term term))
  let round3 := dedupAppendById round2 (hitsFor (fun t => likeEnds t.term term))
  round3.take 10

/-- Embeds `SlangRepository.searchTerms` (part_002 lines 167-186):
`WHERE term LIKE %q% OR region LIKE %q% ORDER BY popularity DESC, term ASC
LIMIT ?` over the sanitized query, default limit 20. -/
def searchTerms (db : List SlangTerm) (query : String) (limit : ℕ := 20) :
    List SlangTerm :=
  let q := sanitizeLikeQuery query
  (((db.filter (fun t => likeContains t.term q || likeContains t.region q)).insertionSort
    searchOrd).take limit)

/-- The `reduce` in `selectBestMatch` / `getRegionalVariations`:
`current.popularity > prev.popularity ? current : prev`, seeded with the first
element (ties keep the earlier element). -/
def mostPopular (h : SlangTerm) (t : List SlangTerm) : SlangTerm :=
  t.foldl (fun prev current =>
    if current.popularity > prev.popularity then current else prev) h

/-- Embeds `SlangTranslationServiceImpl.selectBestMatch`: with a preferred region,
the first candidate whose region matches case-insensitively wins; otherwise
the most popular candidate.  The source throws on an empty candidate list,
modelled by `none`. -/
def selectBestMatch (terms : List SlangTerm) (preferredRegion : Option String) :
    Option SlangTerm :=
  match terms with
  | [] => none
  | h :: t =>
    match preferredRegion with
    | some r =>
      match (h :: t).find? (fun tm => lowerStr tm.region == lowerStr r) with
      | some m => some m
      | none => some (mostPopular h t)
    | none => some (mostPopular h t)

/-- The translation-level `reduce`: highest confidence, ties keep the earlier
element. -/
def mostConfident (h : Translation) (t : List Translation) : Translation :=
  t.foldl (fun prev current =>
    if current.confidence > prev.confidence then current else prev) h

/-- Embeds `SlangTranslationServiceImpl.selectBestTranslation`. -/
def selectBestTranslation (translations : List Translation)
    (preferredContext : Option String) : Option Translation :=
  match translations with
  | [] => none
  | h :: t =>
    match preferredContext with
    | some c =>
      match (h :: t).find? (fun tr => tr.context == c) with
      | some m => some m
      | none => some (mostConfident h t)
    | none => some (mostConfident h t)

/-- Deduplication key `${term.term}-${term.region}-${term.language}`. -/
def dedupKey (t : SlangTerm) : String :=
  t.term ++ "-" ++ t.region ++ "-" ++ t.language

/-- Embeds `SlangTranslationServiceImpl.deduplicateTerms`: keep the first occurrence
of each key. -/
def deduplicateTerms : List SlangTerm → List SlangTerm :=
  go []
where
  go (seen : List String) : List SlangTerm → List SlangTerm
    | [] => []
    | t :: rest =>
      if seen.contains (dedupKey t) then go seen rest
      else t :: go (dedupKey t :: seen) rest

/-- Embeds `term.slice(0, -1)`: drop the last character. -/
def dropLastChar (s : String) : String :=
  String.mk s.toList.dropLast

/-- Embeds `term.replace(/a/g, 'aa')`. -/
def doubleA (s : String) : String :=
  String.mk (s.toList.flatMap (fun c => if c == 'a' then ['a', 'a'] else [c]))

/-- Embeds `term.replace(/i/g, 'ee')`. -/
def iToEe (s : String) : String :=
  String.mk (s.toList.flatMap (fun c => if c == 'i' then ['e', 'e'] else [c]))

/-- Embeds `SlangTranslationServiceImpl.findFuzzyMatches`.  Returns the deduplicated
hits together with the number of `findSimilarTerms` storage calls made (one
per variation that differs from the query and is longer than 2 characters). -/
def findFuzzyMatches (db : List SlangTerm) (term : String) :
    List SlangTerm × ℕ :=
  let variations := [term, dropLastChar term, term ++ "a", term ++ "i",
    doubleA term, iToEe term]
  let active := variations.filter (fun v => v != term && v.length > 2)
  (deduplicateTerms (active.flatMap (findSimilarTerms db)), active.length)

/-- Confidence penalty applied to fuzzy matches in `translateToEnglish`
(line 80 of the service): `Math.max(0.3, confidence - 0.2)`. -/
def fuzzyConfidence (c : ℚ) : ℚ :=
  max (3/10) (c - 2/10)

/-- The unknown-result returned for empty input or when nothing matched
(forward direction). -/
def unknownResultEnglish (text : String) (region : Option String) :
    TranslationResult :=
  { originalText := text
    translatedText := text
    confidence := 0
    context := "casual"
    sourceLanguage := "hindi"
    targetLanguage := "english"
    region := region.getD "unknown"
    alternatives := []
    usageExamples := []
    isUnknown := true }

/-- Embeds `SlangTranslationServiceImpl.translateToEnglish`.  The second component
counts the storage calls performed (`findByTerm` plus one `findSimilarTerms`
per active fuzzy variation). -/
def translateToEnglish (db : List SlangTerm) (text : String)
    (region : Option String) : TranslationResult × ℕ :=
  if trimStr text = "" then
    (unknownResultEnglish text region, 0)
  else
    let normalizedText := normalizeText text
    let exactMatches := findByTerm db normalizedText (some "hindi")
    let exactResult : Option TranslationResult :=
      match selectBestMatch exactMatches region with
      | none => none
      | some bestMatch =>
        let englishTranslations :=
          bestMatch.translations.filter (fun t => t.targetLanguage == "english")
        match selectBestTranslation englishTranslations (some "casual") with
        | none => none
        | some translation =>
          some
            { originalText := text
              translatedText := translation.text
              confidence := translation.confidence
              context := translation.context
              sourceLanguage := "hindi"
              targetLanguage := "english"
              region := bestMatch.region
              alternatives := ((englishTranslations.drop 1).take 3).map
                (fun t => { text := t.text, confidence := t.confidence, context := t.context })
              usageExamples := bestMatch.usageExamples.take 2 }
    match exactResult with
    | some r => (r, 1)
    | none =>
      let fuzzy := findFuzzyMatches db normalizedText
      let fuzzyResult : Option TranslationResult :=
        match selectBestMatch fuzzy.1 region with
        | none => none
        | some bestMatch =>
          let englishTranslations :=
            bestMatch.translations.filter (fun t => t.targetLanguage == "english")
          match selectBestTranslation englishTranslations (some "casual") with
          | none => none
          | some translation =>
            some
              { originalText := text
                translatedText := translation.text
                confidence := fuzzyConfidence translation.confidence
                context := translation.context
                sourceLanguage := "hindi"
                targetLanguage := "english"
                region := bestMatch.region
                alternatives := ((englishTranslations.drop 1).take 3).map
                  (fun t => { text := t.text, confidence := fuzzyConfidence t.confidence,
                              context := t.context })
                usageExamples := bestMatch.usageExamples.take 2
                isFuzzyMatch := true }
      match fuzzyResult with
      | some r => (r, 1 + fuzzy.2)
      | none => (unknownResultEnglish text region, 1 + fuzzy.2)

/-- The unknown-result of the reverse direction. -/
def unknownResultHindi (text : String) (targetRegion : Option String) :
    TranslationResult :=
  { originalText := text
    translatedText := text
    confidence := 0
    context := "casual"
    sourceLanguage := "english"
    targetLanguage := "hindi"
    region := targetRegion.getD "unknown"
    alternatives := []
    usageExamples := []
    isUnknown := true }

/-- Embeds `SlangTranslationServiceImpl.translateToHindi`.  Note: unlike the forward
direction, the source has no empty-input guard; it always performs at least
one `searchTerms` storage call.  The second component counts storage calls. -/
def translateToHindi (db : List SlangTerm) (text : String)
    (targetRegion : Option String) : TranslationResult × ℕ :=
  let normalizedText := normalizeText text
  let searchResults := searchTerms db normalizedText
  let matchingTerms := searchResults.filter (fun term =>
    term.translations.any (fun t =>
      t.targetLanguage == "english" && containsStr (normalizeText t.text) normalizedText))
  match selectBestMatch matchingTerms targetRegion with
  | some bestMatch =>
    ({ originalText := text
       translatedText := bestMatch.term
       confidence := 8/10
       context := bestMatch.context
       sourceLanguage := "english"
       targetLanguage := "hindi"
       region := bestMatch.region
       alternatives := ((matchingTerms.drop 1).take 3).map
         (fun term => { text := term.term, confidence := 7/10, context := term.context })
       usageExamples := bestMatch.usageExamples.take 2 }, 1)
  | none =>
    let broadResults := searchTerms db text
    let relevantTerms := broadResults.filter (fun term =>
      term.translations.any (fun t => t.targetLanguage == "english"))
    match selectBestMatch relevantTerms targetRegion with
    | some bestMatch =>
      ({ originalText := text
         translatedText := bestMatch.term
         confidence := 5/10
         context := bestMatch.context
         sourceLanguage := "english"
         targetLanguage := "hindi"
         region := bestMatch.region
         alternatives := ((relevantTerms.drop 1).take 3).map
           (fun term => { text := term.term, confidence := 4/10, context := term.context })
         usageExamples := bestMatch.usageExamples.take 2
         isFuzzyMatch := true }, 2)
    | none => (unknownResultHindi text targetRegion, 2)

end Slang

/-! ### Regional variations, term mutation and relevance (slang service) -/

structure RegionalVariation where
  region : String
  term : String
  translation : String
  confidence : ℚ
  context : String
  popularity : Int
  usageExamples : List String
  alternativeTerms : List String
deriving DecidableEq, Repr

/-- Error taxonomy of the services: validation failures, uniqueness
conflicts and missing entities (spec section 7). -/
inductive ServiceError where
  | validation (msg : String)
  | conflict (msg : String)
  | notFound (msg : String)
deriving DecidableEq, Repr

namespace Slang

/-- First-occurrence deduplication of strings; models the key insertion
order of a JavaScript `Map`. -/
def dedupStrings : List String → List String :=
  go []
where
  go (seen : List String) : List String → List String
    | [] => []
    | s :: rest =>
      if seen.contains s then go seen rest
      else s :: go (s :: seen) rest

/-- The terms of `uniqueTerms` whose `region` matches, in encounter order;
models the per-region bucket of the `Map<string, SlangTerm[]>` built by
`getRegionalVariations`. -/
def regionBucket (uniqueTerms : List SlangTerm) (region : String) : List SlangTerm :=
  uniqueTerms.filter (fun t => t.region == region)

/-- One `RegionalVariation` entry built from a non-empty region bucket
`h :: t` (source lines 231-249): representative is the most popular term,
the translation fields come from its first English translation, and
`alternativeTerms` is `terms.slice(1)` — everything but the bucket's first
element. -/
def mkVariation (region : String) (h : SlangTerm) (t : List SlangTerm) :
    RegionalVariation :=
  let mp := mostPopular h t
  let engl := mp.translations.filter (fun tr => tr.targetLanguage == "english")
  { region := region
    term := mp.term
    translation := (engl.head?.map (fun tr => tr.text)).getD ""
    confidence :=
      match engl.head? with
      | some tr => jsOr tr.confidence (1/2)
      | none => 1/2
    context := mp.context
    popularity := mp.popularity
    usageExamples := mp.usageExamples.take 2
    alternativeTerms := t.map (fun x => x.term) }

/-- Ordering used by `variations.sort((a, b) => b.popularity - a.popularity)`:
descending popularity. -/
def variationGE (a b : RegionalVariation) : Prop :=
  b.popularity ≤ a.popularity

instance : DecidableRel variationGE := fun a b =>
  inferInstanceAs (Decidable (b.popularity ≤ a.popularity))

instance : IsTotal RegionalVariation variationGE :=
  ⟨fun a b => le_total b.popularity a.popularity⟩

instance : IsTrans RegionalVariation variationGE :=
  ⟨fun _ _ _ h1 h2 => le_trans h2 h1⟩

/-- The merged and deduplicated exact + fuzzy matches that
`getRegionalVariations` groups by region. -/
def uniqueMatches (db : List SlangTerm) (term : String) : List SlangTerm :=
  deduplicateTerms
    (findByTerm db (normalizeText term) none ++ (findFuzzyMatches db (normalizeText term)).1)

/-- Embeds `SlangTranslationServiceImpl.getRegionalVariations`. -/
def getRegionalVariations (db : List SlangTerm) (term : String) :
    List RegionalVariation :=
  let uniqueTerms := uniqueMatches db term
  let regions := dedupStrings (uniqueTerms.map (fun t => t.region))
  let variations := regions.filterMap (fun r =>
    match regionBucket uniqueTerms r with
    | [] => none
    | h :: t => some (mkVariation r h t))
  variations.insertionSort variationGE

/-- Per-translation checks of `validateSlangTerm` (index is 0-based here;
messages use the 1-based index as in the source). -/
def validateTranslation (idx : ℕ) (t : Translation) : Option String :=
  if trimStr t.text = "" then
    some ("Translation " ++ toString (idx + 1) ++ " text cannot be empty")
  else if !(["hindi", "english"].contains t.targetLanguage) then
    some ("Translation " ++ toString (idx + 1) ++
      " target language must be either \"hindi\" or \"english\"")
  else if t.confidence < 0 || t.confidence > 1 then
    some ("Translation " ++ toString (idx + 1) ++ " confidence must be between 0 and 1")
  else none

/-- First failing translation check, walking the list in order. -/
def validateTranslations : ℕ → List Translation → Option String
  | _, [] => none
  | i, t :: rest =>
    match validateTranslation i t with
    | some m => some m
    | none => validateTranslations (i + 1) rest

/-- Embeds `SlangTranslationServiceImpl.validateSlangTerm`: `none` when the term is
valid, otherwise the first failing check's message. -/
def validateSlangTerm (term : SlangTerm) : Option String :=
  if trimStr term.term = "" then some "Slang term cannot be empty"
  else if !(["hindi", "english"].contains term.language) then
    some "Language must be either \"hindi\" or \"english\""
  else if trimStr term.region = "" then some "Region cannot be empty"
  else if !(["casual", "formal", "slang"].contains term.context) then
    some "Context must be one of: casual, formal, slang"
  else if term.popularity < 0 || term.popularity > 100 then
    some "Popularity must be between 0 and 100"
  else if term.translations.isEmpty then some "At least one translation is required"
  else validateTranslations 0 term.translations

/-- Embeds `SlangTranslationServiceImpl.addSlangTerm`: validate, then reject as a
conflict when a stored term shares (text, language, region); otherwise the
term is created (modelled as appending to the store). -/
def addSlangTerm (db : List SlangTerm) (term : SlangTerm) :
    Except ServiceError (List SlangTerm) :=
  match validateSlangTerm term with
  | some msg => .error (.validation msg)
  | none =>
    let existing := findByTerm db term.term (some term.language)
    match existing.find? (fun t => t.region == term.region) with
    | some _ =>
      .error (.conflict ("Slang term \"" ++ term.term ++
        "\" already exists for region \"" ++ term.region ++ "\""))
    | none => .ok (db ++ [term])

/-- Embeds `SlangTranslationServiceImpl.calculateRelevance`: tiered string score
plus a popularity bonus capped at 20. -/
def calculateRelevance (term query : String) (popularity : Int) : ℚ :=
  let termLower := lowerStr term
  let queryLower := lowerStr query
  let score : ℚ :=
    if termLower == queryLower then 100
    else if startsWithStr termLower queryLower then 80
    else if containsStr termLower queryLower then 60
    else if ((termLower.length : ℤ) - (queryLower.length : ℤ)).natAbs ≤ 2 then 30
    else 0
  score + min 20 ((popularity : ℚ) / 5)

end Slang

/-! ### Cultural-content relevance (CulturalServiceImpl) -/

/-- Fields produced by splitting at maximal whitespace runs; models the
JavaScript `text.split(/\s+/)` (a leading or trailing run yields an empty
field, consecutive whitespace collapses).  The first argument is fuel —
always at least the list length at every call, so the fuel-0 case is only
reached on the empty list. -/
def splitRunsGo : ℕ → List Char → List Char → List String
  | 0, _, cur => [String.mk cur.reverse]
  | _ + 1, [], cur => [String.mk cur.reverse]
  | fuel + 1, c :: rest, cur =>
    if c.isWhitespace then
      String.mk cur.reverse :: splitRunsGo fuel (rest.dropWhile Char.isWhitespace) []
    else
      splitRunsGo fuel rest (c :: cur)

/-- JavaScript `s.split(/\s+/)`. -/
def splitRuns (s : String) : List String :=
  splitRunsGo s.toList.length s.toList []

namespace Cultural

/-- Embeds `CulturalServiceImpl.calculateRelevance` (part_000 lines 196-221): tiers
100/80/60 with no length-similarity tier, plus a +40 word-boundary bonus
added independently of the tier taken. -/
def calculateRelevance (query text : String) : ℚ :=
  let textLower := lowerStr text
  let queryLower := lowerStr query
  let score : ℚ :=
    if textLower == queryLower then 100
    else if startsWithStr textLower queryLower then 80
    else if containsStr textLower queryLower then 60
    else 0
  let words := splitRuns textLower
  score + (if words.any (fun w => w == queryLower) then 40 else 0)

end Cultural

/-! ### Food-recommendation data model (src/src/config/index.ts) -/

structure Location where
  latitude : ℚ
  longitude : ℚ
  city : String
  state : String
  country : String
deriving DecidableEq, Repr

structure SafetyRating where
  overall : ℚ
  hygiene : ℚ
  freshness : ℚ
  popularity : ℚ
  reviewCount : ℕ
deriving DecidableEq, Repr

structure PriceRange where
  min : ℚ
  max : ℚ
  currency : String
deriving DecidableEq, Repr

structure DietaryInfo where
  isVegetarian : Bool
  isVegan : Bool
  isGlutenFree : Bool
  allergens : List String
deriving DecidableEq, Repr

structure FoodRecommendation where
  name : String
  description : String
  location : Location
  safetyRating : SafetyRating
  priceRange : PriceRange
  dietaryInfo : DietaryInfo
  bestTime : String
  hygieneNotes : List String
  distance : ℚ
deriving DecidableEq, Repr

structure FoodItem where
  id : String
  name : String
  description : String
  category : String
  region : String
  ingredients : List String
  dietaryInfo : DietaryInfo
  preparationTime : String
  spiceLevel : String
deriving DecidableEq, Repr

structure TimeSlot where
  openTime : String
  closeTime : String
deriving DecidableEq, Repr

structure OperatingHours where
  monday : List TimeSlot
  tuesday : List TimeSlot
  wednesday : List TimeSlot
  thursday : List TimeSlot
  friday : List TimeSlot
  saturday : List TimeSlot
  sunday : List TimeSlot
deriving DecidableEq, Repr

structure FoodVendor where
  id : String
  name : String
  location : Location
  foodItems : List String
  safetyRating : SafetyRating
  priceRange : PriceRange
  operatingHours : OperatingHours
  hygieneNotes : List String
deriving DecidableEq, Repr

/-- Embeds `FoodPreferences`; the service reads every field defensively
(`?.`, `||`) and the request schema marks them all optional, so each field is
modelled as an `Option`. -/
structure FoodPreferences where
  dietaryRestrictions : Option (List String) := none
  spiceLevel : Option String := none
  priceRange : Option PriceRange := none
  radius : Option ℚ := none
deriving DecidableEq, Repr

namespace Food

/-- One row of the join in `FoodRepository.getFoodRecommendations`
(`food_vendors × vendor_food_items × food_items × safety_ratings`); safety
columns are present because `createFoodVendor` always inserts a rating row
(schema checks them into `[1, 5]`). -/
structure VendorItemRow where
  vendorId : String
  vendorName : String
  latitude : ℚ
  longitude : ℚ
  city : String
  state : String
  country : String
  foodName : String
  foodDescription : String
  isVegetarian : Bool
  isVegan : Bool
  spiceLevel : String
  overallRating : ℚ
  hygieneRating : ℚ
  freshnessRating : ℚ
  popularityRating : ℚ
  reviewCount : ℕ
  priceMin : ℚ
  priceMax : ℚ
  currency : String
deriving DecidableEq, Repr

/-- Optional SQL filters of `getFoodRecommendations`.  A filter is only
added to the query when its value is truthy, so `0` / the empty string
behave like an absent filter (JavaScript `if (filters.x)`). -/
structure RecFilters where
  isVegetarian : Option Bool := none
  isVegan : Option Bool := none
  spiceLevel : Option String := none
  maxPrice : Option ℚ := none
  minRating : Option ℚ := none
deriving DecidableEq, Repr

def rowPassesFilters (filters : RecFilters) (row : VendorItemRow) : Bool :=
  (match filters.isVegetarian with
   | some b => row.isVegetarian == b
   | none => true) &&
  (match filters.isVegan with
   | some b => row.isVegan == b
   | none => true) &&
  (match filters.spiceLevel with
   | some s => s == "" || row.spiceLevel == s
   | none => true) &&
  (match filters.maxPrice with
   | some m => decide (m = 0) || decide (row.priceMax ≤ m)
   | none => true) &&
  (match filters.minRating with
   | some r => decide (r = 0) || decide (r ≤ row.overallRating)
   | none => true)

def rowLocation (row : VendorItemRow) : Location :=
  { latitude := row.latitude
    longitude := row.longitude
    city := row.city
    state := row.state
    country := row.country }

/-- The `SELECT`-list mapping of `getFoodRecommendations` (part_005 lines
364-396); `row.x || 3` fallbacks are JavaScript `||`. -/
def mkRecommendation (rd : VendorItemRow × ℚ) : FoodRecommendation :=
  { name := rd.1.foodName
    description := rd.1.foodDescription
    location := rowLocation rd.1
    safetyRating :=
      { overall := jsOr rd.1.overallRating 3
        hygiene := jsOr rd.1.hygieneRating 3
        freshness := jsOr rd.1.freshnessRating 3
        popularity := jsOr rd.1.popularityRating 3
        reviewCount := rd.1.reviewCount }
    priceRange := { min := rd.1.priceMin, max := rd.1.priceMax, currency := rd.1.currency }
    dietaryInfo :=
      { isVegetarian := rd.1.isVegetarian
        isVegan := rd.1.isVegan
        isGlutenFree := false
        allergens := [] }
    bestTime := "Evening (6-9 PM)"
    hygieneNotes := []
    distance := rd.2 }

/-- Composite sort key comparison: first component descending, second
ascending (`ORDER BY sr.overall_rating DESC, distance ASC` and the
JavaScript comparators of the service). -/
def keyLE (x y : ℚ × ℚ) : Prop :=
  y.1 < x.1 ∨ (x.1 = y.1 ∧ x.2 ≤ y.2)

instance : DecidableRel keyLE := fun _ _ =>
  inferInstanceAs (Decidable (_ ∨ _))

/-- Ordering of elements by a composite `(descending, ascending)` key. -/
def keyOrd {α : Type} (f : α → ℚ × ℚ) (a b : α) : Prop :=
  keyLE (f a) (f b)

instance {α : Type} (f : α → ℚ × ℚ) : DecidableRel (keyOrd f) := fun _ _ =>
  inferInstanceAs (Decidable (keyLE _ _))

instance {α : Type} (f : α → ℚ × ℚ) : IsTotal α (keyOrd f) :=
  ⟨fun a b => by
    unfold keyOrd keyLE
    rcases lt_trichotomy (f a).1 (f b).1 with h | h | h
    · exact Or.inr (Or.inl h)
    · rcases le_total (f a).2 (f b).2 with h2 | h2
      · exact Or.inl (Or.inr ⟨h, h2⟩)
      · exact Or.inr (Or.inr ⟨h.symm, h2⟩)
    · exact Or.inl (Or.inl h)⟩

instance {α : Type} (f : α → ℚ × ℚ) : IsTrans α (keyOrd f) :=
  ⟨fun a b c h1 h2 => by
    unfold keyOrd keyLE at h1 h2 ⊢
    rcases h1 with h1 | ⟨h1e, h1le⟩ <;> rcases h2 with h2 | ⟨h2e, h2le⟩
    · exact Or.inl (lt_trans h2 h1)
    · exact Or.inl (h2e ▸ h1)
    · exact Or.inl (h1e ▸ h2)
    · exact Or.inr ⟨h1e.trans h2e, le_trans h1le h2le⟩⟩

/-- Row ordering of the SQL `ORDER BY`: raw `sr.overall_rating` descending,
computed distance ascending. -/
abbrev rowLE : VendorItemRow × ℚ → VendorItemRow × ℚ → Prop :=
  keyOrd (fun rd => (rd.1.overallRating, rd.2))

/-- Recommendation ordering of `getFoodByCategory`'s comparator: safety
rating descending, distance ascending. -/
abbrev recLE : FoodRecommendation → FoodRecommendation → Prop :=
  keyOrd (fun r => (r.safetyRating.overall, r.distance))

/-- Embeds `FoodRepository.getFoodRecommendations` (part_005 lines 292-399).  The
SQL-computed great-circle distance expression is transcendental, so it is
abstracted as the parameter `dist`; the query computes one distance per row,
filters rows by `HAVING distance <= radius`, orders by rating descending and
distance ascending, and returns at most 20 mapped rows. -/
def getFoodRecommendations (dist : Location → Location → ℚ)
    (rows : List VendorItemRow) (location : Location) (radiusKm : ℚ)
    (filters : RecFilters) : List FoodRecommendation :=
  let filtered := rows.filter (rowPassesFilters filters)
  let withDistance := filtered.map (fun row => (row, dist location (rowLocation row)))
  let inRadius := withDistance.filter (fun rd => decide (rd.2 ≤ radiusKm))
  let sorted := inRadius.insertionSort rowLE
  (sorted.take 20).map mkRecommendation

/-- The radius actually passed to the repository by
`FoodRecommendationServiceImpl.getRecommendations`:
`preferences.radius || 5`. -/
def effectiveRadius (preferences : FoodPreferences) : ℚ :=
  jsOr (preferences.radius.getD 0) 5

/-- Embeds `FoodRecommendationServiceImpl.getRecommendations` (lines 17-51): builds
the filter record — note the hard-coded `minRating: 3` and the absence of any
caller-supplied minimum safety rating — and delegates to the repository. -/
def getRecommendations (dist : Location → Location → ℚ)
    (rows : List VendorItemRow) (location : Location)
    (preferences : FoodPreferences) : List FoodRecommendation :=
  let filters : RecFilters :=
    { isVegetarian := preferences.dietaryRestrictions.map (fun ds => ds.contains "vegetarian")
      isVegan := preferences.dietaryRestrictions.map (fun ds => ds.contains "vegan")
      spiceLevel := preferences.spiceLevel
      maxPrice := preferences.priceRange.map (fun pr => pr.max)
      minRating := some 3 }
  getFoodRecommendations dist rows location (effectiveRadius preferences) filters

/-- Embeds `FoodRecommendationServiceImpl.getFoodByCategory` (lines 53-100).
`items` is the repository's category search result and `vendorsNear` the
vendors within the fixed 10 km radius (the source fetches the same vendor
list once per item); `bestTime` abstracts the clock-dependent
`getBestTime`. -/
def getFoodByCategory (dist : Location → Location → ℚ)
    (bestTime : FoodVendor → String) (items : List FoodItem)
    (vendorsNear : List FoodVendor) (location : Location) :
    List FoodRecommendation :=
  let recommendations := items.flatMap (fun item =>
    (vendorsNear.filter (fun v => v.foodItems.contains item.id)).map (fun vendor =>
      { name := item.name
        description := item.description
        location := vendor.location
        safetyRating := vendor.safetyRating
        priceRange := vendor.priceRange
        dietaryInfo := item.dietaryInfo
        bestTime := bestTime vendor
        hygieneNotes := vendor.hygieneNotes
        distance := dist location vendor.location }))
  (recommendations.insertionSort recLE).take 15

end Food

/-! ### Cultural reference content (CulturalServiceImpl, part_000) -/

structure Custom where
  name : String
  description : String
  significance : String
  dosDonts : List String
deriving DecidableEq, Repr

structure Festival where
  name : String
  date : String
  significance : String
  celebrations : List String
  regions : List String
  dosDonts : List String
deriving DecidableEq, Repr

structure EtiquetteRule where
  context : String
  rules : List String
  importance : String
deriving DecidableEq, Repr

structure TransportationInfo where
  publicTransport : List String
  tips : List String
  costs : List PriceRange
deriving DecidableEq, Repr

structure RegionalInfo where
  region : String
  languages : List String
  customs : List Custom
  festivals : List Festival
  etiquette : List EtiquetteRule
  transportation : TransportationInfo
deriving DecidableEq, Repr

namespace Cultural

/-- Key normalization used on every map access:
`region.toLowerCase().trim()`. -/
def normKey (s : String) : String :=
  trimStr (lowerStr s)

/-- The fallback record `getRegionalInfo` synthesizes for a region that is
not in the lookup table (part_000 lines 31-45). -/
def defaultRegionalInfo (region : String) : RegionalInfo :=
  { region := region
    languages := ["Hindi", "English"]
    customs := []
    festivals := []
    etiquette := []
    transportation :=
      { publicTransport := ["Bus", "Auto-rickshaw"]
        tips := ["Negotiate fare beforehand", "Keep small change ready"]
        costs := [{ min := 10, max := 100, currency := "INR" }] } }

/-- Embeds `CulturalServiceImpl.getRegionalInfo`: total — an unknown region yields
the synthesized default record instead of a failure. -/
def getRegionalInfo (data : List (String × RegionalInfo)) (region : String) :
    RegionalInfo :=
  match data.lookup (normKey region) with
  | some info => info
  | none => defaultRegionalInfo region

/-- Embeds `CulturalServiceImpl.getFestivalInfo`: an unknown festival name is a
not-found failure. -/
def getFestivalInfo (festivals : List (String × Festival)) (festival : String) :
    Except ServiceError Festival :=
  match festivals.lookup (normKey festival) with
  | some info => .ok info
  | none => .error (.notFound ("Festival '" ++ festival ++ "' not found"))

/-- The in-memory regional lookup table populated by
`initializeCulturalData` (keys "delhi" and "mumbai"). -/
def culturalData : List (String × RegionalInfo) :=
  [("delhi",
    { region := "Delhi"
      languages := ["Hindi", "English", "Punjabi", "Urdu"]
      customs :=
        [{ name := "Namaste Greeting"
           description := "Traditional greeting with palms pressed together"
           significance := "Shows respect and acknowledges the divine in others"
           dosDonts :=
             ["Do: Press palms together at chest level", "Do: Bow head slightly",
              "Don't: Use only one hand", "Don't: Forget to smile"] },
         { name := "Removing Shoes"
           description := "Remove shoes before entering homes and religious places"
           significance := "Maintains cleanliness and shows respect"
           dosDonts :=
             ["Do: Remove shoes at the entrance", "Do: Place shoes neatly",
              "Don't: Wear shoes inside homes",
              "Don't: Step on the threshold with shoes"] }]
      festivals :=
        [{ name := "Diwali"
           date := "October/November (varies)"
           significance := "Festival of lights celebrating victory of light over darkness"
           celebrations :=
             ["Light diyas and candles", "Fireworks", "Sweet distribution",
              "Family gatherings"]
           regions := ["Delhi", "All India"]
           dosDonts :=
             ["Do: Wish people Happy Diwali", "Do: Accept sweets graciously",
              "Don't: Refuse offered sweets",
              "Don't: Be too loud during celebrations"] }]
      etiquette :=
        [{ context := "dining"
           rules :=
             ["Wash hands before and after eating", "Use right hand for eating",
              "Don't waste food", "Wait for elders to start eating"]
           importance := "high" }]
      transportation :=
        { publicTransport := ["Delhi Metro", "DTC Bus", "Auto-rickshaw", "Uber/Ola"]
          tips :=
            ["Metro is fastest for long distances", "Keep metro card/token ready",
             "Negotiate auto fare or use meter", "Avoid rush hours (8-10 AM, 6-8 PM)"]
          costs :=
            [{ min := 10, max := 60, currency := "INR" },
             { min := 5, max := 25, currency := "INR" },
             { min := 30, max := 200, currency := "INR" }] } }),
   ("mumbai",
    { region := "Mumbai"
      languages := ["Hindi", "Marathi", "English", "Gujarati"]
      customs :=
        [{ name := "Local Train Etiquette"
           description := "Specific behavior expected in Mumbai local trains"
           significance := "Ensures smooth travel for millions of commuters"
           dosDonts :=
             ["Do: Let people exit first", "Do: Offer seats to elderly and women",
              "Don't: Block the doors", "Don't: Put feet on seats"] }]
      festivals :=
        [{ name := "Ganesh Chaturthi"
           date := "August/September (varies)"
           significance := "Celebration of Lord Ganesha, remover of obstacles"
           celebrations :=
             ["Ganesh idol installation", "Community celebrations", "Processions",
              "Modak preparation"]
           regions := ["Mumbai", "Maharashtra"]
           dosDonts :=
             ["Do: Participate respectfully in processions",
              "Do: Try modak (traditional sweet)",
              "Don't: Disturb religious ceremonies",
              "Don't: Litter during processions"] }]
      etiquette :=
        [{ context := "local trains"
           rules :=
             ["Stand on the left side of escalators",
              "Let passengers exit before boarding",
              "Keep backpack in front during rush hour",
              "Offer seats to those who need them more"]
           importance := "high" }]
      transportation :=
        { publicTransport := ["Local Trains", "BEST Bus", "Auto-rickshaw", "Taxi", "Metro"]
          tips :=
            ["Local trains are lifeline of Mumbai", "Buy monthly pass for regular travel",
             "Avoid peak hours if possible", "Keep exact change for buses"]
          costs :=
            [{ min := 5, max := 25, currency := "INR" },
             { min := 8, max := 50, currency := "INR" },
             { min := 25, max := 150, currency := "INR" }] } })]

/-- The in-memory festival lookup table populated by
`initializeCulturalData` (keys "diwali" and "holi"). -/
def festivalsData : List (String × Festival) :=
  [("diwali",
    { name := "Diwali"
      date := "October/November (varies by lunar calendar)"
      significance :=
        "Festival of lights celebrating the victory of light over darkness and good over evil"
      celebrations :=
        ["Lighting oil lamps (diyas) and candles", "Decorating homes with rangoli",
         "Exchanging sweets and gifts", "Fireworks and crackers",
         "Lakshmi Puja (worship of goddess of wealth)"]
      regions := ["All India", "Nepal", "Sri Lanka", "Malaysia", "Singapore"]
      dosDonts :=
        ["Do: Wish everyone Happy Diwali", "Do: Accept sweets and gifts graciously",
         "Do: Dress in new or good clothes", "Do: Light lamps in the evening",
         "Don't: Refuse offered sweets",
         "Don't: Burst crackers near hospitals or schools",
         "Don't: Waste food during celebrations"] }),
   ("holi",
    { name := "Holi"
      date := "March (varies by lunar calendar)"
      significance :=
        "Festival of colors celebrating spring, love, and the triumph of good over evil"
      celebrations :=
        ["Playing with colored powders (gulal)", "Water balloons and water guns",
         "Traditional sweets like gujiya", "Folk songs and dances",
         "Holika Dahan (bonfire) on the eve"]
      regions := ["North India", "Central India", "Nepal"]
      dosDonts :=
        ["Do: Wear old clothes that can get dirty",
         "Do: Apply oil to hair and skin for protection",
         "Do: Play with natural colors if possible",
         "Do: Respect those who don't want to play",
         "Don't: Force colors on unwilling people",
         "Don't: Use harmful chemical colors", "Don't: Waste water excessively"] })]

end Cultural

/-! ### Specification-side scoring formulas

These definitions transcribe the wording of the Relevance Scorer section of
the specification, to be compared with the two `calculateRelevance`
implementations above. -/

namespace Spec

/-- The tier ladder as the specification lists it, including the 30-point
length-similarity tier: exact = 100, starts-with = 80, contains = 60,
length difference at most 2 = 30. -/
def tierLadderWithLength (candidate query : String) : ℚ :=
  let c := lowerStr candidate
  let q := lowerStr query
  if c == q then 100
  else if startsWithStr c q then 80
  else if containsStr c q then 60
  else if ((c.length : ℤ) - (q.length : ℤ)).natAbs ≤ 2 then 30
  else 0

/-- The tier ladder without the length-similarity tier. -/
def tierLadder (candidate query : String) : ℚ :=
  let c := lowerStr candidate
  let q := lowerStr query
  if c == q then 100
  else if startsWithStr c q then 80
  else if containsStr c q then 60
  else 0

/-- Embeds `min(20, popularity / 5)`. -/
def popularityBonus (popularity : Int) : ℚ :=
  min 20 ((popularity : ℚ) / 5)

/-- The +40 word-boundary bonus: some whitespace-delimited word of the
candidate equals the query exactly (case-insensitively). -/
def wordBoundaryBonus (candidate query : String) : ℚ :=
  if (splitRuns (lowerStr candidate)).any (fun w => w == lowerStr query) then 40 else 0

end Spec

/-!
## Theorems

One principal theorem per claim (C1-C10 of the behavioural claims), with
witnesses instantiating every theorem that carries hypotheses, and closed
counterexamples for the claims the code refutes.  Supporting lemmas come
first.
-/

/-- Claim C1: Region preference precedence: whenever a preferred region is
supplied and at least one candidate's region equals it case-insensitively,
`selectBestMatch` picks a candidate from the list whose region equals the
preferred region case-insensitively — the popularity of every other
candidate is irrelevant. -/
theorem selectBestMatch_region_preference (terms : List SlangTerm) (r : String)
    (h : ∃ t ∈ terms, lowerStr t.region = lowerStr r) :
    ∃ sel, Slang.selectBestMatch terms (some r) = some sel ∧ sel ∈ terms ∧
      lowerStr sel.region = lowerStr r := by
  obtain ⟨t, ht, hreg⟩ := h
  cases terms with
  | nil => cases ht
  | cons h0 t0 =>
    have hfind : ((h0 :: t0).find? (fun tm => lowerStr tm.region == lowerStr r)).isSome :=
      List.find?_isSome.mpr ⟨t, ht, by simp [hreg]⟩
    obtain ⟨m, hm⟩ := Option.isSome_iff_exists.mp hfind
    refine ⟨m, ?_, List.mem_of_find?_eq_some hm, ?_⟩
    · simp only [Slang.selectBestMatch, hm]
    · simpa using List.find?_some hm

/-- Witness for C1: the scenario from the specification — a Mumbai term with
higher popularity loses to the Delhi term when `preferredRegion = "Delhi"`
(note the case-insensitive comparison). -/
theorem selectBestMatch_region_preference_witness :
    ∃ sel,
      Slang.selectBestMatch
        [{ id := "m", term := "fundoo", language := "hindi", region := "mumbai",
           translations := [{ text := "cool", targetLanguage := "english",
                              context := "casual", confidence := 9/10 }],
           context := "casual", popularity := 80, usageExamples := [] },
         { id := "d", term := "fundoo", language := "hindi", region := "delhi",
           translations := [{ text := "awesome", targetLanguage := "english",
                              context := "casual", confidence := 8/10 }],
           context := "casual", popularity := 60, usageExamples := [] }]
        (some "Delhi") = some sel ∧
      sel ∈
        [{ id := "m", term := "fundoo", language := "hindi", region := "mumbai",
           translations := [{ text := "cool", targetLanguage := "english",
                              context := "casual", confidence := 9/10 }],
           context := "casual", popularity := 80, usageExamples := [] },
         { id := "d", term := "fundoo", language := "hindi", region := "delhi",
           translations := [{ text := "awesome", targetLanguage := "english",
                              context := "casual", confidence := 8/10 }],
           context := "casual", popularity := 60, usageExamples := [] }] ∧
      lowerStr sel.region = lowerStr "Delhi" :=
  selectBestMatch_region_preference _ "Delhi" (by decide)

/-- Claim C2: Recommendation radius containment: every `FoodRecommendation`
returned by the radius-based repository query carries a computed distance of
at most the search radius — a pairing whose computed distance exceeds the
radius is discarded by the `HAVING distance <= ?` filter before ordering and
mapping. -/
theorem getFoodRecommendations_radius_containment
    (dist : Location → Location → ℚ) (rows : List Food.VendorItemRow)
    (location : Location) (radiusKm : ℚ) (filters : Food.RecFilters)
    (rec : FoodRecommendation)
    (hmem : rec ∈ Food.getFoodRecommendations dist rows location radiusKm filters) :
    rec.distance ≤ radiusKm := by
  unfold Food.getFoodRecommendations at hmem
  obtain ⟨rd, hrd, hEq⟩ := List.mem_map.mp hmem
  have h1 := List.mem_of_mem_take hrd
  rw [List.mem_insertionSort] at h1
  have h2 := (List.mem_filter.mp h1).2
  have h3 : rd.2 ≤ radiusKm := by simpa using h2
  have h4 : rec.distance = rd.2 := by rw [← hEq]; rfl
  rw [h4]; exact h3

/-- Witness for C2: a single vendor-item pairing at distance 0 within a 5 km
radius. -/
theorem getFoodRecommendations_radius_containment_witness :
    (Food.mkRecommendation
      ({ vendorId := "v1", vendorName := "Chaat Corner", latitude := 0, longitude := 0,
         city := "Delhi", state := "DL", country := "India",
         foodName := "Samosa", foodDescription := "Crispy snack",
         isVegetarian := true, isVegan := false, spiceLevel := "medium",
         overallRating := 4, hygieneRating := 4, freshnessRating := 4,
         popularityRating := 5, reviewCount := 12,
         priceMin := 10, priceMax := 30, currency := "INR" }, (0 : ℚ))).distance ≤ (5 : ℚ) :=
  getFoodRecommendations_radius_containment (fun _ _ => 0)
    [{ vendorId := "v1", vendorName := "Chaat Corner", latitude := 0, longitude := 0,
       city := "Delhi", state := "DL", country := "India",
       foodName := "Samosa", foodDescription := "Crispy snack",
       isVegetarian := true, isVegan := false, spiceLevel := "medium",
       overallRating := 4, hygieneRating := 4, freshnessRating := 4,
       popularityRating := 5, reviewCount := 12,
       priceMin := 10, priceMax := 30, currency := "INR" }]
    { latitude := 0, longitude := 0, city := "Delhi", state := "DL", country := "India" }
    5 {}
    (Food.mkRecommendation
      ({ vendorId := "v1", vendorName := "Chaat Corner", latitude := 0, longitude := 0,
         city := "Delhi", state := "DL", country := "India",
         foodName := "Samosa", foodDescription := "Crispy snack",
         isVegetarian := true, isVegan := false, spiceLevel := "medium",
         overallRating := 4, hygieneRating := 4, freshnessRating := 4,
         popularityRating := 5, reviewCount := 12,
         priceMin := 10, priceMax := 30, currency := "INR" }, (0 : ℚ)))
    (by decide)

/-- Sorted prefix helper: any prefix of an insertion-sorted list is pairwise
ordered by the sorting relation. -/
theorem pairwise_take_insertionSort {α : Type} (r : α → α → Prop) [DecidableRel r]
    [IsTotal α r] [IsTrans α r] (l : List α) (n : ℕ) :
    (List.take n (l.insertionSort r)).Pairwise r :=
  (List.sorted_insertionSort r l).sublist (List.take_sublist n _)

/-- Claim C3: Recommendation ordering: in every result list of the
radius-based repository query (whose rows all carry schema-checked ratings
`>= 1`) and of `getFoodByCategory`, an earlier recommendation either has a
strictly higher overall safety rating, or an equal rating and a distance no
larger than the later one's. -/
theorem recommendation_ordering :
    (∀ (dist : Location → Location → ℚ) (rows : List Food.VendorItemRow)
        (location : Location) (radiusKm : ℚ) (filters : Food.RecFilters),
      (∀ row ∈ rows, 1 ≤ row.overallRating) →
      (Food.getFoodRecommendations dist rows location radiusKm filters).Pairwise
        (fun R1 R2 => R2.safetyRating.overall < R1.safetyRating.overall ∨
          (R1.safetyRating.overall = R2.safetyRating.overall ∧ R1.distance ≤ R2.distance))) ∧
    (∀ (dist : Location → Location → ℚ) (bestTime : FoodVendor → String)
        (items : List FoodItem) (vendorsNear : List FoodVendor) (location : Location),
      (Food.getFoodByCategory dist bestTime items vendorsNear location).Pairwise
        (fun R1 R2 => R2.safetyRating.overall < R1.safetyRating.overall ∨
          (R1.safetyRating.overall = R2.safetyRating.overall ∧ R1.distance ≤ R2.distance))) := by
  constructor
  · intro dist rows location radiusKm filters hratings
    simp only [Food.getFoodRecommendations]
    rw [List.pairwise_map]
    refine (pairwise_take_insertionSort Food.rowLE _ 20).imp_of_mem ?_
    intro a b ha hb hab
    have hmemRows : ∀ rd : Food.VendorItemRow × ℚ,
        rd ∈ List.take 20 (List.insertionSort Food.rowLE
          (List.filter (fun rd => decide (rd.2 ≤ radiusKm))
            (List.map (fun row => (row, dist location (Food.rowLocation row)))
              (List.filter (Food.rowPassesFilters filters) rows)))) →
        rd.1 ∈ rows := by
      intro rd hrd
      have h1 := List.mem_of_mem_take hrd
      rw [List.mem_insertionSort] at h1
      have h2 := (List.mem_filter.mp h1).1
      obtain ⟨row, hrow, hEq⟩ := List.mem_map.mp h2
      have hfst : rd.1 = row := by rw [← hEq]
      rw [hfst]
      exact (List.mem_filter.mp hrow).1
    have haR : 1 ≤ a.1.overallRating := hratings _ (hmemRows a ha)
    have hbR : 1 ≤ b.1.overallRating := hratings _ (hmemRows b hb)
    have haNZ : a.1.overallRating ≠ 0 := by intro h; rw [h] at haR; norm_num at haR
    have hbNZ : b.1.overallRating ≠ 0 := by intro h; rw [h] at hbR; norm_num at hbR
    have haJ : (Food.mkRecommendation a).safetyRating.overall = a.1.overallRating := by
      show jsOr a.1.overallRating 3 = a.1.overallRating
      rw [jsOr, if_neg haNZ]
    have hbJ : (Food.mkRecommendation b).safetyRating.overall = b.1.overallRating := by
      show jsOr b.1.overallRating 3 = b.1.overallRating
      rw [jsOr, if_neg hbNZ]
    have haD : (Food.mkRecommendation a).distance = a.2 := rfl
    have hbD : (Food.mkRecommendation b).distance = b.2 := rfl
    rw [haJ, hbJ, haD, hbD]
    exact hab
  · intro dist bestTime items vendorsNear location
    simp only [Food.getFoodByCategory]
    exact (pairwise_take_insertionSort Food.recLE _ 15).imp (fun h => h)

/-- Witness for C3: both recommendation paths at a concrete two-row store
whose ratings satisfy the schema bound. -/
theorem recommendation_ordering_witness :
    (Food.getFoodRecommendations (fun _ _ => 0)
      [{ vendorId := "v1", vendorName := "A", latitude := 0, longitude := 0,
         city := "Delhi", state := "DL", country := "India",
         foodName := "Samosa", foodDescription := "snack",
         isVegetarian := true, isVegan := false, spiceLevel := "medium",
         overallRating := 4, hygieneRating := 4, freshnessRating := 4,
         popularityRating := 4, reviewCount := 3,
         priceMin := 10, priceMax := 30, currency := "INR" },
       { vendorId := "v2", vendorName := "B", latitude := 0, longitude := 0,
         city := "Delhi", state := "DL", country := "India",
         foodName := "Chaat", foodDescription := "snack",
         isVegetarian := true, isVegan := false, spiceLevel := "mild",
         overallRating := 5, hygieneRating := 5, freshnessRating := 5,
         popularityRating := 5, reviewCount := 9,
         priceMin := 20, priceMax := 40, currency := "INR" }]
      { latitude := 0, longitude := 0, city := "Delhi", state := "DL", country := "India" }
      5 {}).Pairwise
      (fun R1 R2 => R2.safetyRating.overall < R1.safetyRating.overall ∨
        (R1.safetyRating.overall = R2.safetyRating.overall ∧ R1.distance ≤ R2.distance)) :=
  recommendation_ordering.1 (fun _ _ => 0)
    [{ vendorId := "v1", vendorName := "A", latitude := 0, longitude := 0,
       city := "Delhi", state := "DL", country := "India",
       foodName := "Samosa", foodDescription := "snack",
       isVegetarian := true, isVegan := false, spiceLevel := "medium",
       overallRating := 4, hygieneRating := 4, freshnessRating := 4,
       popularityRating := 4, reviewCount := 3,
       priceMin := 10, priceMax := 30, currency := "INR" },
     { vendorId := "v2", vendorName := "B", latitude := 0, longitude := 0,
       city := "Delhi", state := "DL", country := "India",
       foodName := "Chaat", foodDescription := "snack",
       isVegetarian := true, isVegan := false, spiceLevel := "mild",
       overallRating := 5, hygieneRating := 5, freshnessRating := 5,
       popularityRating := 5, reviewCount := 9,
       priceMin := 20, priceMax := 40, currency := "INR" }]
    { latitude := 0, longitude := 0, city := "Delhi", state := "DL", country := "India" }
    5 {} (by decide)

/-- Claim C4, counterexample: The claim — both translate directions return an
immediate unknown result with no storage call on empty/whitespace-only input
— is false: `translateToHindi` has no empty-input guard and performs its
search calls (two of them against an empty store) even for the empty
string. -/
theorem translate_empty_input_counterexample :
    ¬ (∀ (db : List SlangTerm) (text : String) (region : Option String),
        trimStr text = "" →
        ((Slang.translateToEnglish db text region).1.confidence = 0 ∧
         (Slang.translateToEnglish db text region).1.isUnknown = true ∧
         (Slang.translateToEnglish db text region).1.translatedText = text ∧
         (Slang.translateToEnglish db text region).2 = 0) ∧
        ((Slang.translateToHindi db text region).1.confidence = 0 ∧
         (Slang.translateToHindi db text region).1.isUnknown = true ∧
         (Slang.translateToHindi db text region).1.translatedText = text ∧
         (Slang.translateToHindi db text region).2 = 0)) := by
  intro h
  exact absurd ((h [] "" none rfl).2.2.2.2) (by decide)

/-- The reverse direction always performs at least one storage call, input
content notwithstanding. -/
theorem translateToHindi_always_calls_storage (db : List SlangTerm)
    (text : String) (targetRegion : Option String) :
    1 ≤ (Slang.translateToHindi db text targetRegion).2 := by
  simp only [Slang.translateToHindi]
  split
  · norm_num
  · split <;> norm_num

/-- Claim C4, amended: Only the forward direction rejects empty or
whitespace-only input immediately: `translateToEnglish` returns the unknown
echo result (confidence 0, `isUnknown`, input echoed) with zero storage
calls, while `translateToHindi` lacks the guard and still performs its
search against storage. -/
theorem translateToEnglish_empty_input (db : List SlangTerm) (text : String)
    (region : Option String) (h : trimStr text = "") :
    Slang.translateToEnglish db text region = (Slang.unknownResultEnglish text region, 0) ∧
    1 ≤ (Slang.translateToHindi db text region).2 := by
  constructor
  · unfold Slang.translateToEnglish
    rw [if_pos h]
  · exact translateToHindi_always_calls_storage db text region

/-- Witness for the amended C4 at a whitespace-only input and a non-empty
store. -/
theorem translateToEnglish_empty_input_witness :
    Slang.translateToEnglish
      [{ id := "j", term := "jugaad", language := "hindi", region := "delhi",
         translations := [{ text := "innovative solution", targetLanguage := "english",
                            context := "casual", confidence := 9/10 }],
         context := "casual", popularity := 70, usageExamples := [] }]
      " " (some "delhi") = (Slang.unknownResultEnglish " " (some "delhi"), 0) ∧
    1 ≤ (Slang.translateToHindi
      [{ id := "j", term := "jugaad", language := "hindi", region := "delhi",
         translations := [{ text := "innovative solution", targetLanguage := "english",
                            context := "casual", confidence := 9/10 }],
         context := "casual", popularity := 70, usageExamples := [] }]
      " " (some "delhi")).2 :=
  translateToEnglish_empty_input _ " " (some "delhi") (by decide)

/-- Claim C5, counterexample: The claim that every caller-supplied filter is
applied to the results is false: with a supplied price range whose maximum
is `0`, the `if (filters.maxPrice)` truthiness guard skips the price
constraint entirely, and a 50-rupee pairing is returned. -/
theorem getRecommendations_filters_counterexample :
    ¬ (∀ (dist : Location → Location → ℚ) (rows : List Food.VendorItemRow)
        (location : Location) (preferences : FoodPreferences),
        ∀ rec ∈ Food.getRecommendations dist rows location preferences,
        ∀ pr, preferences.priceRange = some pr → rec.priceRange.max ≤ pr.max) := by
  intro h
  exact absurd
    (h (fun _ _ => 0)
      [{ vendorId := "v1", vendorName := "A", latitude := 0, longitude := 0,
         city := "Delhi", state := "DL", country := "India",
         foodName := "Samosa", foodDescription := "snack",
         isVegetarian := true, isVegan := false, spiceLevel := "medium",
         overallRating := 4, hygieneRating := 4, freshnessRating := 4,
         popularityRating := 4, reviewCount := 3,
         priceMin := 10, priceMax := 50, currency := "INR" }]
      { latitude := 0, longitude := 0, city := "Delhi", state := "DL", country := "India" }
      { priceRange := some { min := 0, max := 0, currency := "INR" }, radius := some 1 }
      (Food.mkRecommendation
        ({ vendorId := "v1", vendorName := "A", latitude := 0, longitude := 0,
           city := "Delhi", state := "DL", country := "India",
           foodName := "Samosa", foodDescription := "snack",
           isVegetarian := true, isVegan := false, spiceLevel := "medium",
           overallRating := 4, hygieneRating := 4, freshnessRating := 4,
           popularityRating := 4, reviewCount := 3,
           priceMin := 10, priceMax := 50, currency := "INR" }, (0 : ℚ)))
      (by decide) { min := 0, max := 0, currency := "INR" } rfl)
    (by decide)

/-- Claim C5, amended: Every returned recommendation comes from a stored row
that passed the constructed filters: the vegetarian/vegan flags match the
dietary restrictions when supplied, the spice-level filter applies when the
supplied level is non-empty, the max-price filter applies when the supplied
maximum is non-zero, a fixed minimum overall safety rating of 3 is always
enforced (the caller cannot supply one — `FoodPreferences` has no such
field), and the search radius defaults to 5 km when none is supplied. -/
theorem getRecommendations_filters_amended
    (dist : Location → Location → ℚ) (rows : List Food.VendorItemRow)
    (location : Location) (preferences : FoodPreferences)
    (rec : FoodRecommendation)
    (hmem : rec ∈ Food.getRecommendations dist rows location preferences) :
    ∃ row ∈ rows,
      rec = Food.mkRecommendation (row, dist location (Food.rowLocation row)) ∧
      (∀ ds, preferences.dietaryRestrictions = some ds →
        rec.dietaryInfo.isVegetarian = ds.contains "vegetarian" ∧
        rec.dietaryInfo.isVegan = ds.contains "vegan") ∧
      (∀ s, preferences.spiceLevel = some s → s ≠ "" → row.spiceLevel = s) ∧
      (∀ pr, preferences.priceRange = some pr → pr.max ≠ 0 → rec.priceRange.max ≤ pr.max) ∧
      3 ≤ rec.safetyRating.overall ∧
      rec.distance ≤ Food.effectiveRadius preferences ∧
      (preferences.radius = none → Food.effectiveRadius preferences = 5) := by
  simp only [Food.getRecommendations, Food.getFoodRecommendations] at hmem
  obtain ⟨rd, hrd, hEq⟩ := List.mem_map.mp hmem
  have h1 := List.mem_of_mem_take hrd
  rw [List.mem_insertionSort] at h1
  have h2 := List.mem_filter.mp h1
  obtain ⟨row, hrowF, hEq2⟩ := List.mem_map.mp h2.1
  have hdist : rd.2 ≤ Food.effectiveRadius preferences := by simpa using h2.2
  obtain ⟨hrowMem, hpass⟩ := List.mem_filter.mp hrowF
  subst hEq2
  subst hEq
  simp only [Food.rowPassesFilters, Bool.and_eq_true] at hpass
  obtain ⟨⟨⟨⟨hveg, hvegan⟩, hspice⟩, hprice⟩, hrating⟩ := hpass
  have hrating' : (3 : ℚ) ≤ row.overallRating := by
    simpa using hrating
  refine ⟨row, hrowMem, rfl, ?_, ?_, ?_, ?_, ?_, ?_⟩
  · intro ds hds
    rw [hds] at hveg hvegan
    simp only [Option.map_some', beq_iff_eq] at hveg hvegan
    exact ⟨hveg, hvegan⟩
  · intro s hs hns
    rw [hs] at hspice
    simp only [Bool.or_eq_true, beq_iff_eq] at hspice
    exact hspice.resolve_left hns
  · intro pr hpr hne
    rw [hpr] at hprice
    simp only [Option.map_some', Bool.or_eq_true, decide_eq_true_eq] at hprice
    exact hprice.resolve_left hne
  · show (3 : ℚ) ≤ jsOr row.overallRating 3
    unfold jsOr
    split
    · exact le_refl 3
    · exact hrating'
  · exact hdist
  · intro h
    simp [Food.effectiveRadius, h, jsOr]

/-- Witness for the amended C5 at a caller supplying all filters except a
radius (so the 5 km default applies). -/
theorem getRecommendations_filters_amended_witness :
    ∃ row ∈
      [{ vendorId := "v1", vendorName := "A", latitude := 0, longitude := 0,
         city := "Delhi", state := "DL", country := "India",
         foodName := "Samosa", foodDescription := "snack",
         isVegetarian := true, isVegan := false, spiceLevel := "medium",
         overallRating := 4, hygieneRating := 4, freshnessRating := 4,
         popularityRating := 4, reviewCount := 3,
         priceMin := 10, priceMax := 30, currency := "INR" }],
      Food.mkRecommendation
        ({ vendorId := "v1", vendorName := "A", latitude := 0, longitude := 0,
           city := "Delhi", state := "DL", country := "India",
           foodName := "Samosa", foodDescription := "snack",
           isVegetarian := true, isVegan := false, spiceLevel := "medium",
           overallRating := 4, hygieneRating := 4, freshnessRating := 4,
           popularityRating := 4, reviewCount := 3,
           priceMin := 10, priceMax := 30, currency := "INR" }, (0 : ℚ)) =
        Food.mkRecommendation (row, (fun (_ _ : Location) => (0 : ℚ))
          { latitude := 0, longitude := 0, city := "Delhi", state := "DL", country := "India" }
          (Food.rowLocation row)) ∧
      (∀ ds, (some ["vegetarian"] : Option (List String)) = some ds →
        (Food.mkRecommendation
          ({ vendorId := "v1", vendorName := "A", latitude := 0, longitude := 0,
             city := "Delhi", state := "DL", country := "India",
             foodName := "Samosa", foodDescription := "snack",
             isVegetarian := true, isVegan := false, spiceLevel := "medium",
             overallRating := 4, hygieneRating := 4, freshnessRating := 4,
             popularityRating := 4, reviewCount := 3,
             priceMin := 10, priceMax := 30, currency := "INR" }, (0 : ℚ))).dietaryInfo.isVegetarian =
          ds.contains "vegetarian" ∧
        (Food.mkRecommendation
          ({ vendorId := "v1", vendorName := "A", latitude := 0, longitude := 0,
             city := "Delhi", state := "DL", country := "India",
             foodName := "Samosa", foodDescription := "snack",
             isVegetarian := true, isVegan := false, spiceLevel := "medium",
             overallRating := 4, hygieneRating := 4, freshnessRating := 4,
             popularityRating := 4, reviewCount := 3,
             priceMin := 10, priceMax := 30, currency := "INR" }, (0 : ℚ))).dietaryInfo.isVegan =
          ds.contains "vegan") ∧
      (∀ s, (some "medium" : Option String) = some s → s ≠ "" → row.spiceLevel = s) ∧
      (∀ pr, (some { min := 0, max := 100, currency := "INR" } : Option PriceRange) = some pr →
        pr.max ≠ 0 →
        (Food.mkRecommendation
          ({ vendorId := "v1", vendorName := "A", latitude := 0, longitude := 0,
             city := "Delhi", state := "DL", country := "India",
             foodName := "Samosa", foodDescription := "snack",
             isVegetarian := true, isVegan := false, spiceLevel := "medium",
             overallRating := 4, hygieneRating := 4, freshnessRating := 4,
             popularityRating := 4, reviewCount := 3,
             priceMin := 10, priceMax := 30, currency := "INR" }, (0 : ℚ))).priceRange.max ≤ pr.max) ∧
      3 ≤ (Food.mkRecommendation
        ({ vendorId := "v1", vendorName := "A", latitude := 0, longitude := 0,
           city := "Delhi", state := "DL", country := "India",
           foodName := "Samosa", foodDescription := "snack",
           isVegetarian := true, isVegan := false, spiceLevel := "medium",
           overallRating := 4, hygieneRating := 4, freshnessRating := 4,
           popularityRating := 4, reviewCount := 3,
           priceMin := 10, priceMax := 30, currency := "INR" }, (0 : ℚ))).safetyRating.overall ∧
      (Food.mkRecommendation
        ({ vendorId := "v1", vendorName := "A", latitude := 0, longitude := 0,
           city := "Delhi", state := "DL", country := "India",
           foodName := "Samosa", foodDescription := "snack",
           isVegetarian := true, isVegan := false, spiceLevel := "medium",
           overallRating := 4, hygieneRating := 4, freshnessRating := 4,
           popularityRating := 4, reviewCount := 3,
           priceMin := 10, priceMax := 30, currency := "INR" }, (0 : ℚ))).distance ≤
        Food.effectiveRadius
          { dietaryRestrictions := some ["vegetarian"], spiceLevel := some "medium",
            priceRange := some { min := 0, max := 100, currency := "INR" }, radius := none } ∧
      ((none : Option ℚ) = none →
        Food.effectiveRadius
          { dietaryRestrictions := some ["vegetarian"], spiceLevel := some "medium",
            priceRange := some { min := 0, max := 100, currency := "INR" }, radius := none } = 5) :=
  getRecommendations_filters_amended (fun _ _ => 0)
    [{ vendorId := "v1", vendorName := "A", latitude := 0, longitude := 0,
       city := "Delhi", state := "DL", country := "India",
       foodName := "Samosa", foodDescription := "snack",
       isVegetarian := true, isVegan := false, spiceLevel := "medium",
       overallRating := 4, hygieneRating := 4, freshnessRating := 4,
       popularityRating := 4, reviewCount := 3,
       priceMin := 10, priceMax := 30, currency := "INR" }]
    { latitude := 0, longitude := 0, city := "Delhi", state := "DL", country := "India" }
    { dietaryRestrictions := some ["vegetarian"], spiceLevel := some "medium",
      priceRange := some { min := 0, max := 100, currency := "INR" }, radius := none }
    (Food.mkRecommendation
      ({ vendorId := "v1", vendorName := "A", latitude := 0, longitude := 0,
         city := "Delhi", state := "DL", country := "India",
         foodName := "Samosa", foodDescription := "snack",
         isVegetarian := true, isVegan := false, spiceLevel := "medium",
         overallRating := 4, hygieneRating := 4, freshnessRating := 4,
         popularityRating := 4, reviewCount := 3,
         priceMin := 10, priceMax := 30, currency := "INR" }, (0 : ℚ)))
    (by decide)

/-- Claim C6, counterexample: the fuzzy-match confidence `max(0.3, c - 0.2)`
is *not* always strictly below the exact-match confidence `c`: for an entry
"chaiwala" stored with confidence `0.25`, the exact lookup (query
"chaiwala") reports `0.25` while the fuzzy lookup (query "chai", whose
variant "cha" is a `LIKE`-substring hit on the same entry) reports the floor
`0.3`, which is larger. -/
theorem fuzzy_confidence_counterexample :
    (¬ (∀ c : ℚ, 0 ≤ c → c ≤ 1 → Slang.fuzzyConfidence c < c)) ∧
    (Slang.translateToEnglish
      [{ id := "c", term := "chaiwala", language := "hindi", region := "delhi",
         translations := [{ text := "tea seller", targetLanguage := "english",
                            context := "casual", confidence := mkRat 1 4 }],
         context := "casual", popularity := 50, usageExamples := [] }]
      "chaiwala" none).1.confidence = mkRat 1 4 ∧
    (Slang.translateToEnglish
      [{ id := "c", term := "chaiwala", language := "hindi", region := "delhi",
         translations := [{ text := "tea seller", targetLanguage := "english",
                            context := "casual", confidence := mkRat 1 4 }],
         context := "casual", popularity := 50, usageExamples := [] }]
      "chai" none).1.confidence = mkRat 3 10 ∧
    (Slang.translateToEnglish
      [{ id := "c", term := "chaiwala", language := "hindi", region := "delhi",
         translations := [{ text := "tea seller", targetLanguage := "english",
                            context := "casual", confidence := mkRat 1 4 }],
         context := "casual", popularity := 50, usageExamples := [] }]
      "chai" none).1.isFuzzyMatch = true ∧
    ¬ (mkRat 3 10 < mkRat 1 4) := by
  have hfc : Slang.fuzzyConfidence (mkRat 1 4) = mkRat 3 10 := by
    rw [Slang.fuzzyConfidence, Rat.mkRat_eq_div, Rat.mkRat_eq_div]
    norm_num
  refine ⟨?_, rfl, ?_, rfl, by decide⟩
  · intro h
    have h2 := h (mkRat 1 4) (by decide) (by decide)
    rw [hfc] at h2
    exact absurd h2 (by decide)
  · have h1 : (Slang.translateToEnglish
      [{ id := "c", term := "chaiwala", language := "hindi", region := "delhi",
         translations := [{ text := "tea seller", targetLanguage := "english",
                            context := "casual", confidence := mkRat 1 4 }],
         context := "casual", popularity := 50, usageExamples := [] }]
      "chai" none).1.confidence = Slang.fuzzyConfidence (mkRat 1 4) := rfl
    rw [h1, hfc]

/-- Claim C6, amended: The fuzzy-match confidence for an entry of exact-match
confidence `c` is `max(0.3, c - 0.2)`: it never drops below the 0.3 floor,
and it is strictly less than `c` exactly when `c` exceeds 0.3 (at or below
0.3 it equals or exceeds the exact-match confidence). -/
theorem fuzzyConfidence_amended (c : ℚ) (_h0 : 0 ≤ c) (_h1 : c ≤ 1) :
    (3/10 : ℚ) ≤ Slang.fuzzyConfidence c ∧
    (Slang.fuzzyConfidence c < c ↔ (3/10 : ℚ) < c) := by
  unfold Slang.fuzzyConfidence
  refine ⟨le_max_left _ _, ?_⟩
  rcases le_total (c - 2/10) (3/10) with h | h
  · rw [max_eq_left h]
  · rw [max_eq_right h]
    constructor <;> intro hc <;> linarith

/-- Witness for the amended C6 at `c = 1/2`. -/
theorem fuzzyConfidence_amended_witness :
    (3/10 : ℚ) ≤ Slang.fuzzyConfidence (mkRat 1 2) ∧
    (Slang.fuzzyConfidence (mkRat 1 2) < mkRat 1 2 ↔ (3/10 : ℚ) < mkRat 1 2) :=
  fuzzyConfidence_amended (mkRat 1 2) (by decide) (by decide)

/-- Claim C7: Uniqueness enforcement: adding a (valid) term whose
(text, language, region) triple coincides with a stored term's always fails
with a conflict error — never an ok result — so the stored data is left
unchanged by the call. -/
theorem addSlangTerm_conflict (db : List SlangTerm) (term t : SlangTerm)
    (hmem : t ∈ db) (hterm : t.term = term.term) (hlang : t.language = term.language)
    (hregion : t.region = term.region) (hvalid : Slang.validateSlangTerm term = none) :
    ∃ msg, Slang.addSlangTerm db term = Except.error (ServiceError.conflict msg) ∧
      ∀ db', Slang.addSlangTerm db term ≠ Except.ok db' := by
  unfold Slang.addSlangTerm
  rw [hvalid]
  have hfind : ((Slang.findByTerm db term.term (some term.language)).find?
      (fun x => x.region == term.region)).isSome := by
    apply List.find?_isSome.mpr
    refine ⟨t, ?_, by simp [hregion]⟩
    unfold Slang.findByTerm
    rw [List.mem_filter]
    exact ⟨hmem, by simp [hterm, hlang]⟩
  obtain ⟨d, hd⟩ := Option.isSome_iff_exists.mp hfind
  simp only [hd]
  exact ⟨_, rfl, fun db' h => by simp at h⟩

/-- Witness for C7: a second "jugaad" for Delhi in Hindi is rejected as a
conflict. -/
theorem addSlangTerm_conflict_witness :
    ∃ msg,
      Slang.addSlangTerm
        [{ id := "1", term := "jugaad", language := "hindi", region := "delhi",
           translations := [{ text := "innovative solution", targetLanguage := "english",
                              context := "casual", confidence := mkRat 9 10 }],
           context := "casual", popularity := 70, usageExamples := [] }]
        { id := "2", term := "jugaad", language := "hindi", region := "delhi",
          translations := [{ text := "clever hack", targetLanguage := "english",
                             context := "casual", confidence := mkRat 8 10 }],
          context := "casual", popularity := 10, usageExamples := [] } =
        Except.error (ServiceError.conflict msg) ∧
      ∀ db', Slang.addSlangTerm
        [{ id := "1", term := "jugaad", language := "hindi", region := "delhi",
           translations := [{ text := "innovative solution", targetLanguage := "english",
                              context := "casual", confidence := mkRat 9 10 }],
           context := "casual", popularity := 70, usageExamples := [] }]
        { id := "2", term := "jugaad", language := "hindi", region := "delhi",
          translations := [{ text := "clever hack", targetLanguage := "english",
                             context := "casual", confidence := mkRat 8 10 }],
          context := "casual", popularity := 10, usageExamples := [] } ≠ Except.ok db' :=
  addSlangTerm_conflict _ _
    { id := "1", term := "jugaad", language := "hindi", region := "delhi",
      translations := [{ text := "innovative solution", targetLanguage := "english",
                         context := "casual", confidence := mkRat 9 10 }],
      context := "casual", popularity := 70, usageExamples := [] }
    (by decide) rfl rfl rfl (by decide)

/-- The seeded popularity `reduce` always returns an element of the list. -/
theorem mostPopular_mem (t : List SlangTerm) : ∀ h, Slang.mostPopular h t ∈ h :: t := by
  induction t with
  | nil => intro h; exact List.mem_cons_self _ _
  | cons c rest ih =>
    intro h
    rw [show Slang.mostPopular h (c :: rest) =
      Slang.mostPopular (if c.popularity > h.popularity then c else h) rest from rfl]
    rcases List.mem_cons.mp (ih (if c.popularity > h.popularity then c else h)) with h1 | h1
    · rw [h1]
      by_cases hc : c.popularity > h.popularity
      · rw [if_pos hc]; exact List.mem_cons_of_mem _ (List.mem_cons_self _ _)
      · rw [if_neg hc]; exact List.mem_cons_self _ _
    · exact List.mem_cons_of_mem _ (List.mem_cons_of_mem _ h1)

/-- The seeded popularity `reduce` dominates every element of the list. -/
theorem le_mostPopular (t : List SlangTerm) :
    ∀ h, ∀ x ∈ h :: t, x.popularity ≤ (Slang.mostPopular h t).popularity := by
  induction t with
  | nil =>
    intro h x hx
    rcases List.mem_cons.mp hx with h1 | h1
    · rw [h1]; exact le_refl _
    · cases h1
  | cons c rest ih =>
    intro h x hx
    rw [show Slang.mostPopular h (c :: rest) =
      Slang.mostPopular (if c.popularity > h.popularity then c else h) rest from rfl]
    rcases List.mem_cons.mp hx with h1 | h1
    · have hle : h.popularity ≤ (if c.popularity > h.popularity then c else h).popularity := by
        by_cases hc : c.popularity > h.popularity
        · rw [if_pos hc]; exact le_of_lt hc
        · rw [if_neg hc]
      rw [h1]
      exact le_trans hle (ih _ _ (List.mem_cons_self _ _))
    · rcases List.mem_cons.mp h1 with h2 | h2
      · have hle : c.popularity ≤ (if c.popularity > h.popularity then c else h).popularity := by
          by_cases hc : c.popularity > h.popularity
          · rw [if_pos hc]
          · rw [if_neg hc]; exact le_of_not_lt hc
        rw [h2]
        exact le_trans hle (ih _ _ (List.mem_cons_self _ _))
      · exact ih _ x (List.mem_cons_of_mem _ h2)

/-- Claim C8, counterexample: `alternativeTerms` is `terms.slice(1)` — all
but the *first* bucket member, not all but the representative: when the most
popular term of a region group is not the group's first-encountered member,
the representative's own name appears among its alternatives (and the first
member's name is missing), and the carried translation is the
representative's *first* English translation, not its highest-confidence
one. -/
theorem regional_variations_counterexample :
    (¬ (∀ (db : List SlangTerm) (q : String), ∀ v ∈ Slang.getRegionalVariations db q,
        v.term ∉ v.alternativeTerms)) ∧
    Slang.getRegionalVariations
      [{ id := "1", term := "foo", language := "hindi", region := "delhi",
         translations := [{ text := "only", targetLanguage := "english",
                            context := "casual", confidence := 1 }],
         context := "casual", popularity := 10, usageExamples := [] },
       { id := "2", term := "fooaa", language := "hindi", region := "delhi",
         translations := [{ text := "meh", targetLanguage := "english",
                            context := "casual", confidence := mkRat 2 10 },
                          { text := "good", targetLanguage := "english",
                            context := "casual", confidence := mkRat 9 10 }],
         context := "casual", popularity := 50, usageExamples := [] }]
      "foo" =
      [{ region := "delhi", term := "fooaa", translation := "meh",
         confidence := mkRat 2 10, context := "casual", popularity := 50,
         usageExamples := [], alternativeTerms := ["fooaa"] }] := by
  refine ⟨?_, by decide⟩
  intro h
  exact absurd (List.mem_singleton.mpr rfl)
    (h
      [{ id := "1", term := "foo", language := "hindi", region := "delhi",
         translations := [{ text := "only", targetLanguage := "english",
                            context := "casual", confidence := 1 }],
         context := "casual", popularity := 10, usageExamples := [] },
       { id := "2", term := "fooaa", language := "hindi", region := "delhi",
         translations := [{ text := "meh", targetLanguage := "english",
                            context := "casual", confidence := mkRat 2 10 },
                          { text := "good", targetLanguage := "english",
                            context := "casual", confidence := mkRat 9 10 }],
         context := "casual", popularity := 50, usageExamples := [] }]
      "foo"
      { region := "delhi", term := "fooaa", translation := "meh",
        confidence := mkRat 2 10, context := "casual", popularity := 50,
        usageExamples := [], alternativeTerms := ["fooaa"] }
      (by decide))

/-- Claim C8, amended: Entries of `regionalVariations` are sorted by
descending popularity; each entry's representative is a most popular term of
its region bucket (it belongs to the bucket and dominates every member), it
carries that representative's *first* English translation, and
`alternativeTerms` names every bucket member except the bucket's *first*
element — so the representative itself appears among the alternatives
whenever it is not the first-encountered member. -/
theorem getRegionalVariations_amended (db : List SlangTerm) (q : String) :
    (Slang.getRegionalVariations db q).Pairwise
      (fun a b => b.popularity ≤ a.popularity) ∧
    ∀ v ∈ Slang.getRegionalVariations db q,
      ∃ h t, Slang.regionBucket (Slang.uniqueMatches db q) v.region = h :: t ∧
        v = Slang.mkVariation v.region h t ∧
        Slang.mostPopular h t ∈ h :: t ∧
        (∀ x ∈ h :: t, x.popularity ≤ (Slang.mostPopular h t).popularity) ∧
        v.term = (Slang.mostPopular h t).term ∧
        v.popularity = (Slang.mostPopular h t).popularity ∧
        v.alternativeTerms = t.map (fun x => x.term) := by
  constructor
  · exact (List.sorted_insertionSort Slang.variationGE _).imp (fun h => h)
  · intro v hv
    simp only [Slang.getRegionalVariations] at hv
    rw [List.mem_insertionSort] at hv
    obtain ⟨r, _hr, heq⟩ := List.mem_filterMap.mp hv
    cases hb : Slang.regionBucket (Slang.uniqueMatches db q) r with
    | nil => rw [hb] at heq; cases heq
    | cons h t =>
      rw [hb] at heq
      have hveq : Slang.mkVariation r h t = v := by
        simpa using heq
      have hreg : v.region = r := by rw [← hveq]; rfl
      refine ⟨h, t, ?_, ?_, mostPopular_mem t h, le_mostPopular t h, ?_, ?_, ?_⟩
      · rw [hreg]; exact hb
      · rw [hreg, hveq]
      · rw [← hveq]; rfl
      · rw [← hveq]; rfl
      · rw [← hveq]; rfl

/-- Witness for the amended C8 at the two-term store of the counterexample
scenario. -/
theorem getRegionalVariations_amended_witness :
    ∃ h t,
      Slang.regionBucket
        (Slang.uniqueMatches
          [{ id := "1", term := "foo", language := "hindi", region := "delhi",
             translations := [{ text := "only", targetLanguage := "english",
                                context := "casual", confidence := 1 }],
             context := "casual", popularity := 10, usageExamples := [] },
           { id := "2", term := "fooaa", language := "hindi", region := "delhi",
             translations := [{ text := "meh", targetLanguage := "english",
                                context := "casual", confidence := mkRat 2 10 },
                              { text := "good", targetLanguage := "english",
                                context := "casual", confidence := mkRat 9 10 }],
             context := "casual", popularity := 50, usageExamples := [] }]
          "foo")
        ({ region := "delhi", term := "fooaa", translation := "meh",
           confidence := mkRat 2 10, context := "casual", popularity := 50,
           usageExamples := [], alternativeTerms := ["fooaa"] } : RegionalVariation).region =
        h :: t ∧
      ({ region := "delhi", term := "fooaa", translation := "meh",
         confidence := mkRat 2 10, context := "casual", popularity := 50,
         usageExamples := [], alternativeTerms := ["fooaa"] } : RegionalVariation) =
        Slang.mkVariation
          ({ region := "delhi", term := "fooaa", translation := "meh",
             confidence := mkRat 2 10, context := "casual", popularity := 50,
             usageExamples := [], alternativeTerms := ["fooaa"] } : RegionalVariation).region h t ∧
      Slang.mostPopular h t ∈ h :: t ∧
      (∀ x ∈ h :: t, x.popularity ≤ (Slang.mostPopular h t).popularity) ∧
      ({ region := "delhi", term := "fooaa", translation := "meh",
         confidence := mkRat 2 10, context := "casual", popularity := 50,
         usageExamples := [], alternativeTerms := ["fooaa"] } : RegionalVariation).term =
        (Slang.mostPopular h t).term ∧
      ({ region := "delhi", term := "fooaa", translation := "meh",
         confidence := mkRat 2 10, context := "casual", popularity := 50,
         usageExamples := [], alternativeTerms := ["fooaa"] } : RegionalVariation).popularity =
        (Slang.mostPopular h t).popularity ∧
      ({ region := "delhi", term := "fooaa", translation := "meh",
         confidence := mkRat 2 10, context := "casual", popularity := 50,
         usageExamples := [], alternativeTerms := ["fooaa"] } : RegionalVariation).alternativeTerms =
        t.map (fun x => x.term) :=
  (getRegionalVariations_amended
    [{ id := "1", term := "foo", language := "hindi", region := "delhi",
       translations := [{ text := "only", targetLanguage := "english",
                          context := "casual", confidence := 1 }],
       context := "casual", popularity := 10, usageExamples := [] },
     { id := "2", term := "fooaa", language := "hindi", region := "delhi",
       translations := [{ text := "meh", targetLanguage := "english",
                          context := "casual", confidence := mkRat 2 10 },
                        { text := "good", targetLanguage := "english",
                          context := "casual", confidence := mkRat 9 10 }],
       context := "casual", popularity := 50, usageExamples := [] }]
    "foo").2
    { region := "delhi", term := "fooaa", translation := "meh",
      confidence := mkRat 2 10, context := "casual", popularity := 50,
      usageExamples := [], alternativeTerms := ["fooaa"] }
    (by decide)

/-- Claim C9, counterexample: Reading the claim's tier ladder (including the
30-point length-similarity tier) into the cultural scorer is refuted: for
query "abc" and candidate "xyz" (equal lengths, no containment, no word
match) the claimed formula yields 30 while the cultural scorer yields 0 —
the 30-point tier exists only in the slang scorer. -/
theorem relevance_formula_counterexample :
    ¬ ((∀ (term query : String) (popularity : Int),
          Slang.calculateRelevance term query popularity =
            Spec.tierLadderWithLength term query + Spec.popularityBonus popularity) ∧
       (∀ (query text : String),
          Cultural.calculateRelevance query text =
            Spec.tierLadderWithLength text query + Spec.wordBoundaryBonus text query)) := by
  intro h
  have h2 := h.2 "abc" "xyz"
  rw [show Cultural.calculateRelevance "abc" "xyz" = (0 : ℚ) + 0 from rfl,
      show Spec.tierLadderWithLength "xyz" "abc" + Spec.wordBoundaryBonus "xyz" "abc" =
        (30 : ℚ) + 0 from rfl] at h2
  norm_num at h2

/-- Claim C9, amended: The slang scorer is exactly the four-tier ladder
(100/80/60/30) plus the capped popularity bonus `min(20, popularity/5)`; the
cultural scorer is the three-tier ladder (100/80/60, no length tier) plus
the +40 word-boundary bonus, added independently of the tier taken. -/
theorem relevance_formula_amended :
    (∀ (term query : String) (popularity : Int),
        Slang.calculateRelevance term query popularity =
          Spec.tierLadderWithLength term query + Spec.popularityBonus popularity) ∧
    (∀ (query text : String),
        Cultural.calculateRelevance query text =
          Spec.tierLadder text query + Spec.wordBoundaryBonus text query) :=
  ⟨fun _ _ _ => rfl, fun _ _ => rfl⟩

/-- Claim C10: `getRegionalInfo` never fails: a region absent from the lookup
table yields the synthesized default record (region echoed, languages
Hindi/English, empty customs/festivals/etiquette, generic transportation
tips); `getFestivalInfo`, by contrast, fails with a not-found error for an
unknown festival name. -/
theorem getRegionalInfo_default_and_festival_notFound :
    (∀ (data : List (String × RegionalInfo)) (region : String),
      data.lookup (Cultural.normKey region) = none →
      Cultural.getRegionalInfo data region = Cultural.defaultRegionalInfo region) ∧
    (∀ (festivals : List (String × Festival)) (festival : String),
      festivals.lookup (Cultural.normKey festival) = none →
      Cultural.getFestivalInfo festivals festival =
        Except.error (ServiceError.notFound ("Festival '" ++ festival ++ "' not found"))) := by
  constructor
  · intro data region h
    unfold Cultural.getRegionalInfo
    rw [h]
  · intro fs f h
    unfold Cultural.getFestivalInfo
    rw [h]

/-- Witness for C10 at the actual startup tables: "Goa" is not a key of the
regional table and "Onam" is not a key of the festival table. -/
theorem getRegionalInfo_default_and_festival_notFound_witness :
    Cultural.getRegionalInfo Cultural.culturalData "Goa" =
      Cultural.defaultRegionalInfo "Goa" ∧
    Cultural.getFestivalInfo Cultural.festivalsData "Onam" =
      Except.error (ServiceError.notFound ("Festival '" ++ "Onam" ++ "' not found")) :=
  ⟨getRegionalInfo_default_and_festival_notFound.1 Cultural.culturalData "Goa" (by decide),
   getRegionalInfo_default_and_festival_notFound.2 Cultural.festivalsData "Onam" (by decide)⟩
